import Mathlib

/-!
Shallow embedding of the transform / gesture / rendering core of the
proofshot repository (src/js/canvas.js, with the scale slider handler from
src/js/ui.js and the constants of src/js/toploader-config.js).

JavaScript numbers are modelled as exact real numbers; pixel coordinates of
the GIF composition buffer are natural numbers.  DOM side effects (render
calls, cursor styling, file-picker clicks, setTimeout callbacks and
requestAnimationFrame scheduling) are not part of the state; the per-tick
callbacks of the self-rescheduling loops are modelled as step functions.
-/

namespace Proofshot

open scoped Classical

/-- Natural dimensions of a loaded media element (image width/height). -/
structure ImgDim where
  width : ℝ
  height : ℝ

/-- The canvas' bounding client rect (canvas.getBoundingClientRect()). -/
structure Rect where
  left : ℝ
  top : ℝ
  width : ℝ
  height : ℝ

/-- Background transform record (CanvasManager.background). -/
structure BackgroundT where
  x : ℝ
  y : ℝ
  scale : ℝ
  rotation : ℝ
  flipH : Bool
  flipV : Bool

/-- The photocard's layer order: drawn above or below the border decoration. -/
inductive Layer
  | front
  | back
deriving DecidableEq

/-- Photocard transform record (CanvasManager.photocard). -/
structure PhotocardT where
  x : ℝ
  y : ℝ
  scale : ℝ
  rotation : ℝ
  flipH : Bool
  flipV : Bool
  layer : Layer
  showToploader : Bool

/-- One tracked pointer of the gesture session (entries of gesture.pointers). -/
structure Pointer where
  id : ℕ
  x : ℝ
  y : ℝ

/-- Gesture session state (CanvasManager.gesture). -/
structure Gesture where
  active : Bool
  startDistance : ℝ
  startAngle : ℝ
  startScale : ℝ
  startRotation : ℝ
  lastX : ℝ
  lastY : ℝ
  pointers : List Pointer

/-- Inertia animation state (CanvasManager.animation). -/
structure Animation where
  active : Bool
  velocityX : ℝ
  velocityY : ℝ

/-- A pointer event as consumed by the handlers (pointerId, clientX, clientY). -/
structure PointerEvent where
  pointerId : ℕ
  clientX : ℝ
  clientY : ℝ

/-- The state of CanvasManager that the transform / gesture core reads and
writes.  modalOpen models document.querySelector having an active modal;
isPlaceholder models the placeholder-photocard flag. -/
structure CanvasState where
  backgroundImage : Option ImgDim
  photocardImage : Option ImgDim
  isPlaceholder : Bool
  modalOpen : Bool
  canvasRect : Rect
  background : BackgroundT
  photocard : PhotocardT
  gesture : Gesture
  animation : Animation

/-- getDistance (canvas.js 460-464): Euclidean distance of two pointers. -/
noncomputable def getDistance (p1 p2 : Pointer) : ℝ :=
  let dx := p2.x - p1.x
  let dy := p2.y - p1.y
  Real.sqrt (dx * dx + dy * dy)

/-- getAngle (canvas.js 469-471): Math.atan2(p2.y - p1.y, p2.x - p1.x),
modelled as the argument of the complex number dx + dy*I. -/
noncomputable def getAngle (p1 p2 : Pointer) : ℝ :=
  Complex.arg ⟨p2.x - p1.x, p2.y - p1.y⟩

/-- isPointOnPhotocard (canvas.js 476-498): hit test of a canvas-space point
against the photocard in its rotated/scaled local frame. -/
def isPointOnPhotocard (st : CanvasState) (x y : ℝ) : Prop :=
  match st.photocardImage with
  | none => False
  | some img =>
    let dx := x - st.photocard.x
    let dy := y - st.photocard.y
    let c := Real.cos (-st.photocard.rotation)
    let s := Real.sin (-st.photocard.rotation)
    let localX := dx * c - dy * s
    let localY := dx * s + dy * c
    let scaledX := localX / st.photocard.scale
    let scaledY := localY / st.photocard.scale
    let halfWidth := img.width / 2
    let halfHeight := img.height / 2
    |scaledX| ≤ halfWidth ∧ |scaledY| ≤ halfHeight

/-- Rotation of a plane vector by an angle, written from the spec's words
("rotating by -rotationRadians") for the refinement comparison in C1. -/
noncomputable def specRotate (θ : ℝ) (p : ℝ × ℝ) : ℝ × ℝ :=
  (p.1 * Real.cos θ - p.2 * Real.sin θ, p.1 * Real.sin θ + p.2 * Real.cos θ)

/-- Spec-side hit test (spec section 4.1 hitTest), written from the spec's
words: subtract the translate, rotate by -rotation, divide by scale, and
compare against the centered w×h box.  Used only to compare with
isPointOnPhotocard. -/
noncomputable def specHitTest (t : PhotocardT) (w h px py : ℝ) : Prop :=
  let lp := specRotate (-t.rotation) (px - t.x, py - t.y)
  |lp.1 / t.scale| ≤ w / 2 ∧ |lp.2 / t.scale| ≤ h / 2

/-- Update the first pointer whose id matches (the findIndex / in-place
assignment of canvas.js 352-356). -/
def updatePointer : List Pointer → ℕ → ℝ → ℝ → List Pointer
  | [], _, _, _ => []
  | p :: ps, pid, nx, ny =>
    if p.id = pid then { p with x := nx, y := ny } :: ps
    else p :: updatePointer ps pid nx ny

/-- handlePointerDown (canvas.js 266-327).  The early return for a tap on the
placeholder (canvas.js 273-301) applies the 0.95 visual-feedback scale and
returns; its DOM side effects (file-picker click, setTimeout restore) are not
modelled. -/
noncomputable def handlePointerDown (st : CanvasState) (e : PointerEvent) : CanvasState :=
  match st.photocardImage with
  | none => st
  | some _ =>
    if st.modalOpen then st
    else if st.isPlaceholder ∧ st.gesture.pointers.length = 0
        ∧ isPointOnPhotocard st (e.clientX - st.canvasRect.left)
            (e.clientY - st.canvasRect.top) then
      { st with photocard := { st.photocard with scale := st.photocard.scale * 0.95 } }
    else
      let pointers := st.gesture.pointers ++ [⟨e.pointerId, e.clientX, e.clientY⟩]
      let g1 :=
        match pointers with
        | [_] =>
          { st.gesture with pointers := pointers, lastX := e.clientX, lastY := e.clientY }
        | [p1, p2] =>
          { st.gesture with
              pointers := pointers,
              startDistance := getDistance p1 p2,
              startAngle := getAngle p1 p2,
              startScale := st.photocard.scale,
              startRotation := st.photocard.rotation }
        | _ => { st.gesture with pointers := pointers }
      { st with
          gesture := { g1 with active := true },
          animation := { st.animation with active := false } }

/-- handlePointerMove (canvas.js 332-389).  The placeholder-hover cursor
update (337-347) only touches DOM style and is omitted. -/
noncomputable def handlePointerMove (st : CanvasState) (e : PointerEvent) : CanvasState :=
  if st.modalOpen then st
  else
    match st.gesture.active, st.photocardImage with
    | true, some _ =>
      let pointers := updatePointer st.gesture.pointers e.pointerId e.clientX e.clientY
      match pointers with
      | [_] =>
        let dx := e.clientX - st.gesture.lastX
        let dy := e.clientY - st.gesture.lastY
        { st with
          photocard := { st.photocard with x := st.photocard.x + dx, y := st.photocard.y + dy },
          gesture := { st.gesture with pointers := pointers, lastX := e.clientX, lastY := e.clientY },
          animation := { st.animation with velocityX := dx, velocityY := dy } }
      | [p1, p2] =>
        let distance := getDistance p1 p2
        let scaleChange := distance / st.gesture.startDistance
        let angle := getAngle p1 p2
        let angleChange := angle - st.gesture.startAngle
        { st with
          photocard := { st.photocard with
            scale := max 0.1 (min 5 (st.gesture.startScale * scaleChange)),
            rotation := st.gesture.startRotation + angleChange },
          gesture := { st.gesture with pointers := pointers } }
      | _ => { st with gesture := { st.gesture with pointers := pointers } }
    | _, _ => st

/-- Single tick of the inertia loop body (canvas.js 433-452): apply the
velocity to the photocard translate, multiply the velocity by the 0.9
friction factor, and go inactive once both components are below 0.1. -/
noncomputable def inertiaTick (st : CanvasState) : CanvasState :=
  if st.animation.active = false then st
  else
    let x := st.photocard.x + st.animation.velocityX
    let y := st.photocard.y + st.animation.velocityY
    let vx := st.animation.velocityX * 0.9
    let vy := st.animation.velocityY * 0.9
    if |vx| < 0.1 ∧ |vy| < 0.1 then
      { st with
        photocard := { st.photocard with x := x, y := y },
        animation := { active := false, velocityX := vx, velocityY := vy } }
    else
      { st with
        photocard := { st.photocard with x := x, y := y },
        animation := { active := true, velocityX := vx, velocityY := vy } }

/-- startInertiaAnimation (canvas.js 430-455): set the active flag and run
the first tick synchronously; later ticks are requestAnimationFrame
iterations of inertiaTick. -/
noncomputable def startInertiaAnimation (st : CanvasState) : CanvasState :=
  inertiaTick { st with animation := { st.animation with active := true } }

/-- handlePointerUp (canvas.js 394-411). -/
noncomputable def handlePointerUp (st : CanvasState) (e : PointerEvent) : CanvasState :=
  let pointers := st.gesture.pointers.filter (fun p => p.id ≠ e.pointerId)
  if pointers.length = 0 then
    let st1 := { st with gesture := { st.gesture with pointers := pointers, active := false } }
    if |st.animation.velocityX| > 1 ∨ |st.animation.velocityY| > 1 then
      startInertiaAnimation st1
    else st1
  else
    match pointers with
    | p :: _ =>
      if pointers.length = 1 then
        { st with gesture := { st.gesture with pointers := pointers, lastX := p.x, lastY := p.y } }
      else
        { st with gesture := { st.gesture with pointers := pointers } }
    | [] => { st with gesture := { st.gesture with pointers := pointers } }

/-- handleWheel (canvas.js 416-425). -/
noncomputable def handleWheel (st : CanvasState) (deltaY : ℝ) : CanvasState :=
  match st.photocardImage with
  | none => st
  | some _ =>
    let delta : ℝ := if deltaY > 0 then 0.95 else 1.05
    { st with photocard := { st.photocard with
        scale := max 0.1 (min 5 (st.photocard.scale * delta)) } }

/-- The numeric transform properties settable through updateBackground /
updatePhotocard; the ui.js sliders call them with these property names. -/
inductive TransformProp
  | x
  | y
  | scale
  | rotation

/-- Assignment this.background[property] = value for the numeric properties. -/
def setBackgroundProp (t : BackgroundT) : TransformProp → ℝ → BackgroundT
  | .x, v => { t with x := v }
  | .y, v => { t with y := v }
  | .scale, v => { t with scale := v }
  | .rotation, v => { t with rotation := v }

/-- Assignment this.photocard[property] = value for the numeric properties. -/
def setPhotocardProp (t : PhotocardT) : TransformProp → ℝ → PhotocardT
  | .x, v => { t with x := v }
  | .y, v => { t with y := v }
  | .scale, v => { t with scale := v }
  | .rotation, v => { t with rotation := v }

/-- updateBackground (canvas.js 1628-1632). -/
def updateBackground (st : CanvasState) (property : TransformProp) (value : ℝ) : CanvasState :=
  match st.backgroundImage with
  | none => st
  | some _ => { st with background := setBackgroundProp st.background property value }

/-- flipBackgroundHorizontal (canvas.js 1634-1638). -/
def flipBackgroundHorizontal (st : CanvasState) : CanvasState :=
  match st.backgroundImage with
  | none => st
  | some _ => { st with background := { st.background with flipH := !st.background.flipH } }

/-- flipBackgroundVertical (canvas.js 1640-1644). -/
def flipBackgroundVertical (st : CanvasState) : CanvasState :=
  match st.backgroundImage with
  | none => st
  | some _ => { st with background := { st.background with flipV := !st.background.flipV } }

/-- resetBackground (canvas.js 1646-1657). -/
def resetBackground (st : CanvasState) : CanvasState :=
  match st.backgroundImage with
  | none => st
  | some _ =>
    { st with background := { x := 0, y := 0, scale := 1, rotation := 0, flipH := false, flipV := false } }

/-- updatePhotocard (canvas.js 1662-1666). -/
def updatePhotocard (st : CanvasState) (property : TransformProp) (value : ℝ) : CanvasState :=
  match st.photocardImage with
  | none => st
  | some _ => { st with photocard := setPhotocardProp st.photocard property value }

/-- flipPhotocardHorizontal (canvas.js 1668-1672). -/
def flipPhotocardHorizontal (st : CanvasState) : CanvasState :=
  match st.photocardImage with
  | none => st
  | some _ => { st with photocard := { st.photocard with flipH := !st.photocard.flipH } }

/-- flipPhotocardVertical (canvas.js 1674-1678). -/
def flipPhotocardVertical (st : CanvasState) : CanvasState :=
  match st.photocardImage with
  | none => st
  | some _ => { st with photocard := { st.photocard with flipV := !st.photocard.flipV } }

/-- resetPhotocard (canvas.js 1680-1694): recenter to the canvas rect's
center, refit the scale with the 1.5 padding factor, zero rotation and
flips, and keep the layer order and toploader visibility. -/
noncomputable def resetPhotocard (st : CanvasState) : CanvasState :=
  match st.photocardImage with
  | none => st
  | some img =>
    let rect := st.canvasRect
    { st with photocard :=
      { x := rect.width / 2,
        y := rect.height / 2,
        scale := min rect.width rect.height / (img.width * 1.5),
        rotation := 0,
        flipH := false,
        flipV := false,
        layer := st.photocard.layer,
        showToploader := st.photocard.showToploader } }

/-- bringToFront (canvas.js 1696-1700). -/
def bringToFront (st : CanvasState) : CanvasState :=
  match st.photocardImage with
  | none => st
  | some _ => { st with photocard := { st.photocard with layer := .front } }

/-- sendToBack (canvas.js 1702-1706). -/
def sendToBack (st : CanvasState) : CanvasState :=
  match st.photocardImage with
  | none => st
  | some _ => { st with photocard := { st.photocard with layer := .back } }

/-- toggleToploader (canvas.js 1711-1714).  Unlike the other mutators it has
no photocardImage guard in the source. -/
def toggleToploader (st : CanvasState) (showFlag : Bool) : CanvasState :=
  { st with photocard := { st.photocard with showToploader := showFlag } }

/-- The scale-setting inputs of claim C3: pinch-zoom pointer moves, wheel
events, and the photocard scale slider (ui.js 276-280, which forwards the
slider value to updatePhotocard with the scale property). -/
inductive InputEvent
  | pointerMove (e : PointerEvent)
  | wheel (deltaY : ℝ)
  | sliderScale (value : ℝ)

/-- Dispatch one input event to its handler. -/
noncomputable def applyInput (st : CanvasState) : InputEvent → CanvasState
  | .pointerMove e => handlePointerMove st e
  | .wheel deltaY => handleWheel st deltaY
  | .sliderScale value => updatePhotocard st .scale value

/-- Modelled from the spec: the photocard scale slider is an HTML range
input whose markup is not under src/; per the spec's invariant ("scale is
clamped to [0.1, 5] wherever user gesture or wheel/slider input sets it"),
the values the slider emits lie in [0.1, 5].  Pointer-move and wheel events
carry no such obligation. -/
def sliderValueInRange : InputEvent → Prop
  | .sliderScale value => 0.1 ≤ value ∧ value ≤ 5
  | _ => True

/-- A composition buffer pixel: packed RGBA value, 0 meaning fully
transparent (the state clearRect leaves behind). -/
abbrev Pixel := ℕ

/-- The persistent off-screen composition canvas, as a pixel grid. -/
abbrev GifCanvas := ℕ → ℕ → Pixel

/-- One decoded frame as delivered by the external GIF decoder: placement
dims, patch data, disposal type, delay in centiseconds. -/
structure GifFrame where
  left : ℕ
  top : ℕ
  width : ℕ
  height : ℕ
  patch : ℕ → ℕ → Pixel
  disposalType : ℕ
  delay : Option ℕ

instance : Inhabited GifFrame := ⟨⟨0, 0, 0, 0, fun _ _ => 0, 0, none⟩⟩

/-- tempCtx.clearRect(0, 0, gifWidth, gifHeight) (canvas.js 983). -/
def clearRect (gifWidth gifHeight : ℕ) (c : GifCanvas) : GifCanvas :=
  fun px py => if px < gifWidth ∧ py < gifHeight then 0 else c px py

/-- tempCtx.putImageData(imageData, frame.dims.left, frame.dims.top)
(canvas.js 990-992): overwrite the frame's rectangle with the patch data,
clipped to the canvas. -/
def putImageData (gifWidth gifHeight : ℕ) (f : GifFrame) (c : GifCanvas) : GifCanvas :=
  fun px py =>
    if px < gifWidth ∧ py < gifHeight
        ∧ f.left ≤ px ∧ px < f.left + f.width ∧ f.top ≤ py ∧ py < f.top + f.height then
      f.patch (px - f.left) (py - f.top)
    else c px py

/-- The frames.forEach composition loop of parseGif (canvas.js 977-1014):
prevDisposal is the disposal type of the previous frame (none at index 0);
the buffer is cleared before compositing when it is 2 (restore to
background); each resulting buffer state is snapshot as one output frame.
Disposal type 3 (restore to previous) is deliberately not implemented by
the source. -/
def composeFrames (gifWidth gifHeight : ℕ) :
    Option ℕ → GifCanvas → List GifFrame → List GifCanvas
  | _, _, [] => []
  | prevDisposal, buf, f :: rest =>
    let buf1 := if prevDisposal = some 2 then clearRect gifWidth gifHeight buf else buf
    let buf2 := putImageData gifWidth gifHeight f buf1
    buf2 :: composeFrames gifWidth gifHeight (some f.disposalType) buf2 rest

/-- parseGif's frame composition (canvas.js 961-1014): a fresh transparent
persistent canvas, composed over all decoded frames. -/
def parseGif (gifWidth gifHeight : ℕ) (frames : List GifFrame) : List GifCanvas :=
  composeFrames gifWidth gifHeight none (fun _ _ => 0) frames

/-- Delay conversion of canvas.js 1013: (frame.delay || 10) * 10, with the
JavaScript || treating both undefined and 0 as missing. -/
def frameDelayMs (f : GifFrame) : ℕ :=
  (match f.delay with
   | none => 10
   | some d => if d = 0 then 10 else d) * 10

/-- The geometry drawBackground computes before painting (canvas.js
1187-1233): cover-fit base size, canvas-center translate plus the background
offset, and the centered drawImage rectangle. -/
structure BgDrawGeom where
  baseWidth : ℝ
  baseHeight : ℝ
  centerX : ℝ
  centerY : ℝ
  drawX : ℝ
  drawY : ℝ

/-- drawBackground (canvas.js 1187-1233), restricted to its geometry: the
rotate / scale-with-flip context calls consume the transform unchanged and
are not part of the computed data.  The source names the two aspect ratios
imgRatio and canvasRatio. -/
noncomputable def drawBackground (img : ImgDim) (width height : ℝ) (bg : BackgroundT) : BgDrawGeom :=
  let imgAspect := img.width / img.height
  let canvasAspect := width / height
  let base : ℝ × ℝ :=
    if imgAspect > canvasAspect then (height * imgAspect, height)
    else (width, width / imgAspect)
  { baseWidth := base.1,
    baseHeight := base.2,
    centerX := width / 2 + bg.x,
    centerY := height / 2 + bg.y,
    drawX := -(base.1 / 2),
    drawY := -(base.2 / 2) }

/-- The toploader-config.js values drawToploader's gradients consume. -/
structure ToploaderConfigData where
  sideOverlap : ℝ
  bottomOverlap : ℝ
  topRadius : ℝ
  bottomRadius : ℝ
  leftThickness : ℝ
  rightThickness : ℝ
  westWidthMultiplier : ℝ
  westScaleFactor : ℝ
  westStartOpacity : ℝ
  westEndOpacity : ℝ
  eastWidthMultiplier : ℝ
  eastScaleFactor : ℝ
  eastStartOpacity : ℝ
  eastEndOpacity : ℝ
  southEdgeOpacity : ℝ
  southCenterOpacity : ℝ

/-- The shipped ToploaderConfig values (toploader-config.js). -/
noncomputable def ToploaderConfig : ToploaderConfigData :=
  { sideOverlap := 61.8,
    bottomOverlap := 139.23,
    topRadius := 70,
    bottomRadius := 42,
    leftThickness := 12.096,
    rightThickness := 7.488,
    westWidthMultiplier := 3,
    westScaleFactor := 1.35,
    westStartOpacity := 0.85,
    westEndOpacity := 0.425,
    eastWidthMultiplier := 4.35,
    eastScaleFactor := 1.35,
    eastStartOpacity := 0.85,
    eastEndOpacity := 0.85,
    southEdgeOpacity := 0.595,
    southCenterOpacity := 0.8075 }

/-- A canvas linear gradient object.  gid is the identity of the allocation
(ctx.createLinearGradient returns a fresh object each call); the remaining
fields are the construction arguments, stops holding (offset, alpha) of the
white color stops. -/
structure Gradient where
  gid : ℕ
  x0 : ℝ
  y0 : ℝ
  x1 : ℝ
  y1 : ℝ
  stops : List (ℝ × ℝ)

/-- CanvasManager.toploaderGradientCache (canvas.js 67-73). -/
structure ToploaderGradientCache where
  westGradient : Option Gradient
  eastGradient : Option Gradient
  southGradient : Option Gradient
  cachedWidth : Option ℝ
  cachedHeight : Option ℝ

instance : Inhabited Gradient := ⟨⟨0, 0, 0, 0, 0, []⟩⟩

/-- What one drawToploader call produces, as far as the gradient cache is
concerned: the three gradients it fills with, the cache afterwards, and the
next fresh allocation id. -/
structure DrawToploaderResult where
  west : Gradient
  east : Gradient
  south : Gradient
  cache : ToploaderGradientCache
  nextGradientId : ℕ

/-- drawToploader (canvas.js 1269-1623), restricted to its gradient-cache
behaviour: dimensionsChanged is checked against the cached (width, height)
once at entry (1280-1281); each of the west / east / south gradients is
freshly constructed and stored when it is true (1326-1336, 1353-1364,
1378-1388) and read from the cache otherwise; the cached dimensions are
updated at the end (1621-1622).  The path drawing and fills between these
steps paint pixels only and are omitted; nextId numbers the
createLinearGradient allocations. -/
noncomputable def drawToploader (cfg : ToploaderConfigData)
    (cache : ToploaderGradientCache) (nextId : ℕ) (width height : ℝ) :
    DrawToploaderResult :=
  let overlap := cfg.sideOverlap
  let toploaderWidth := width + overlap * 2
  let toploaderHeight := height + overlap + cfg.bottomOverlap
  let dimensionsChanged :=
    cache.cachedWidth ≠ some width ∨ cache.cachedHeight ≠ some height
  let x := -(toploaderWidth / 2)
  let y := -(height / 2) - overlap
  let westGradient :=
    if dimensionsChanged then
      ⟨nextId, x, y, x + cfg.leftThickness * cfg.westWidthMultiplier * cfg.westScaleFactor, y,
        [(0, cfg.westStartOpacity), (1, cfg.westEndOpacity)]⟩
    else cache.westGradient.getD default
  let eastGradient :=
    if dimensionsChanged then
      ⟨nextId + 1, x + toploaderWidth, y,
        x + toploaderWidth - cfg.rightThickness * cfg.eastWidthMultiplier * cfg.eastScaleFactor, y,
        [(0, cfg.eastStartOpacity), (1, cfg.eastEndOpacity)]⟩
    else cache.eastGradient.getD default
  let southBorderStart := x + cfg.bottomRadius
  let southBorderEnd := x + toploaderWidth - cfg.bottomRadius
  let southGradient :=
    if dimensionsChanged then
      ⟨nextId + 2, southBorderStart, y + toploaderHeight, southBorderEnd, y + toploaderHeight,
        [(0, cfg.southEdgeOpacity), (0.5, cfg.southCenterOpacity), (1, cfg.southEdgeOpacity)]⟩
    else cache.southGradient.getD default
  let cache1 :=
    if dimensionsChanged then
      { cache with
          westGradient := some westGradient,
          eastGradient := some eastGradient,
          southGradient := some southGradient }
    else cache
  { west := westGradient,
    east := eastGradient,
    south := southGradient,
    cache := { cache1 with cachedWidth := some width, cachedHeight := some height },
    nextGradientId := if dimensionsChanged then nextId + 3 else nextId }

end Proofshot

namespace Proofshot

/-- Claim C1: for every foreground transform and point, isPointOnPhotocard
returns true iff the point, carried into the local frame by subtracting the
translate, rotating by -rotation and dividing by scale, lies in the centered
mediaWidth × mediaHeight box; and the result does not depend on the flipH /
flipV flags. -/
theorem isPointOnPhotocard_iff_specHitTest (st : CanvasState) (img : ImgDim)
    (px py : ℝ) (a b : Bool) :
    (isPointOnPhotocard { st with photocardImage := some img } px py ↔
      specHitTest st.photocard img.width img.height px py)
    ∧ (isPointOnPhotocard
        { st with photocard := { st.photocard with flipH := a, flipV := b } } px py ↔
      isPointOnPhotocard st px py) := by
  constructor
  · simp only [isPointOnPhotocard, specHitTest, specRotate]
  · cases h : st.photocardImage with
    | none => simp [isPointOnPhotocard, h]
    | some i => simp [isPointOnPhotocard, h]

/-- Claim C5: with a foreground media of natural width w loaded, reset of
the foreground layer recenters the translate to the canvas center, sets the
scale to min(cw, ch) / (w * 1.5), and zeroes rotation and both flips. -/
theorem resetPhotocard_recenters (st : CanvasState) (img : ImgDim) :
    let st' := resetPhotocard { st with photocardImage := some img }
    st'.photocard.x = st.canvasRect.width / 2
    ∧ st'.photocard.y = st.canvasRect.height / 2
    ∧ st'.photocard.scale = min st.canvasRect.width st.canvasRect.height / (img.width * 1.5)
    ∧ st'.photocard.rotation = 0
    ∧ st'.photocard.flipH = false
    ∧ st'.photocard.flipV = false := by
  simp [resetPhotocard]

/-- Claim C10: resetPhotocard keeps the foreground's layer order and
toploader visibility exactly as they were. -/
theorem resetPhotocard_preserves_layer_and_toploader (st : CanvasState) :
    (resetPhotocard st).photocard.layer = st.photocard.layer
    ∧ (resetPhotocard st).photocard.showToploader = st.photocard.showToploader := by
  cases h : st.photocardImage with
  | none => simp [resetPhotocard, h]
  | some img => simp [resetPhotocard, h]

/-- Claim C6, counterexample: toggleToploader is not a no-op on a state with
no foreground media — it still flips the overlay-visibility field of the
foreground transform. -/
theorem toggleToploader_mutates_without_media :
    let st : CanvasState :=
      { backgroundImage := none, photocardImage := none,
        isPlaceholder := false, modalOpen := false,
        canvasRect := ⟨0, 0, 400, 600⟩,
        background := ⟨0, 0, 1, 0, false, false⟩,
        photocard := ⟨0, 0, 1, 0, false, false, Layer.front, true⟩,
        gesture := ⟨false, 0, 0, 1, 0, 0, 0, []⟩,
        animation := ⟨false, 0, 0⟩ }
    st.photocardImage = none
    ∧ st.photocard.showToploader = true
    ∧ (toggleToploader st false).photocard.showToploader = false := by
  exact ⟨rfl, rfl, rfl⟩

/-- Claim C6, amended: every transform-store mutator except toggleToploader
is a no-op when its layer has no media loaded; toggleToploader sets the
overlay-visibility flag unconditionally and leaves everything else
unchanged. -/
theorem mutators_noop_without_media (st stB stT : CanvasState)
    (hp : st.photocardImage = none) (hb : stB.backgroundImage = none)
    (p pb : TransformProp) (v vb : ℝ) (b : Bool) :
    (updatePhotocard st p v = st
      ∧ flipPhotocardHorizontal st = st
      ∧ flipPhotocardVertical st = st
      ∧ resetPhotocard st = st
      ∧ bringToFront st = st
      ∧ sendToBack st = st)
    ∧ (updateBackground stB pb vb = stB
      ∧ flipBackgroundHorizontal stB = stB
      ∧ flipBackgroundVertical stB = stB
      ∧ resetBackground stB = stB)
    ∧ toggleToploader stT b
        = { stT with photocard := { stT.photocard with showToploader := b } } := by
  refine ⟨⟨?_, ?_, ?_, ?_, ?_, ?_⟩, ⟨?_, ?_, ?_, ?_⟩, rfl⟩ <;>
    simp [updatePhotocard, flipPhotocardHorizontal, flipPhotocardVertical,
      resetPhotocard, bringToFront, sendToBack, updateBackground,
      flipBackgroundHorizontal, flipBackgroundVertical, resetBackground, hp, hb]

/-- Claim C6, witness: the amended no-op statement at a concrete empty
state. -/
theorem mutators_noop_without_media_witness :
    let st : CanvasState :=
      { backgroundImage := none, photocardImage := none,
        isPlaceholder := false, modalOpen := false,
        canvasRect := ⟨0, 0, 400, 600⟩,
        background := ⟨0, 0, 1, 0, false, false⟩,
        photocard := ⟨0, 0, 1, 0, false, false, Layer.front, true⟩,
        gesture := ⟨false, 0, 0, 1, 0, 0, 0, []⟩,
        animation := ⟨false, 0, 0⟩ }
    (updatePhotocard st TransformProp.scale 7 = st
      ∧ flipPhotocardHorizontal st = st
      ∧ flipPhotocardVertical st = st
      ∧ resetPhotocard st = st
      ∧ bringToFront st = st
      ∧ sendToBack st = st)
    ∧ (updateBackground st TransformProp.x 3 = st
      ∧ flipBackgroundHorizontal st = st
      ∧ flipBackgroundVertical st = st
      ∧ resetBackground st = st)
    ∧ toggleToploader st false
        = { st with photocard := { st.photocard with showToploader := false } } :=
  mutators_noop_without_media _ _ _ rfl rfl TransformProp.scale TransformProp.x 7 3 false

/-- Claim C8: drawBackground sizes the base layer with cover fit — if the
media aspect exceeds the canvas aspect the drawn height is the canvas
height and the drawn width is height * aspect, otherwise the drawn width is
the canvas width and the drawn height is width / aspect — and the drawImage
rectangle is centered on the local origin. -/
theorem drawBackground_cover_fit (img : ImgDim) (width height : ℝ) (bg : BackgroundT) :
    let g := drawBackground img width height bg
    (img.width / img.height > width / height →
      g.baseHeight = height ∧ g.baseWidth = height * (img.width / img.height))
    ∧ (¬(img.width / img.height > width / height) →
      g.baseWidth = width ∧ g.baseHeight = width / (img.width / img.height))
    ∧ g.drawX = -(g.baseWidth / 2) ∧ g.drawY = -(g.baseHeight / 2)
    ∧ g.centerX = width / 2 + bg.x ∧ g.centerY = height / 2 + bg.y := by
  by_cases h : img.width / img.height > width / height <;>
    simp [drawBackground, h]

/-- Claim C8, witness: an 800×400 image in a 400×300 canvas is wider than
the canvas, so the drawn base size is 300 * (800/400) by 300, centered. -/
theorem drawBackground_cover_fit_witness :
    let g := drawBackground ⟨800, 400⟩ 400 300 ⟨0, 0, 1, 0, false, false⟩
    (g.baseHeight = 300 ∧ g.baseWidth = 300 * ((800 : ℝ) / 400))
    ∧ g.drawX = -(g.baseWidth / 2) ∧ g.drawY = -(g.baseHeight / 2) := by
  have h := drawBackground_cover_fit ⟨800, 400⟩ 400 300 ⟨0, 0, 1, 0, false, false⟩
  exact ⟨h.1 (by norm_num), h.2.2.1, h.2.2.2.1⟩

/-- An inactive animation makes the inertia tick a no-op (the loop body's
early return). -/
theorem inertiaTick_of_inactive (s : CanvasState) (h : s.animation.active = false) :
    inertiaTick s = s := by
  simp [inertiaTick, h]

/-- While the inertia loop is still active after n ticks, each velocity
component has decayed by 0.9 per tick, and (for n ≥ 1) the stop threshold
was not yet reached. -/
theorem inertiaTick_iterate_active (s : CanvasState) :
    ∀ n : ℕ, (inertiaTick^[n] s).animation.active = true →
      (inertiaTick^[n] s).animation.velocityX = s.animation.velocityX * 0.9 ^ n
      ∧ (inertiaTick^[n] s).animation.velocityY = s.animation.velocityY * 0.9 ^ n
      ∧ (n ≠ 0 → ¬(|(inertiaTick^[n] s).animation.velocityX| < 0.1
            ∧ |(inertiaTick^[n] s).animation.velocityY| < 0.1)) := by
  intro n
  induction n with
  | zero => intro _; simp
  | succ n ih =>
    intro hact
    rw [Function.iterate_succ_apply'] at hact ⊢
    set t := inertiaTick^[n] s with ht
    by_cases hta : t.animation.active = false
    · rw [inertiaTick_of_inactive t hta] at hact
      rw [hta] at hact
      exact absurd hact (by simp)
    · have hta' : t.animation.active = true := by
        cases h : t.animation.active
        · exact absurd h hta
        · rfl
      obtain ⟨ihx, ihy, _⟩ := ih hta'
      by_cases hstop : |t.animation.velocityX * 0.9| < 0.1 ∧ |t.animation.velocityY * 0.9| < 0.1
      · have : (inertiaTick t).animation.active = false := by
          simp only [inertiaTick, hta']
          simp [hstop]
        rw [this] at hact
        exact absurd hact (by simp)
      · have hrun : (inertiaTick t).animation.velocityX = t.animation.velocityX * 0.9
            ∧ (inertiaTick t).animation.velocityY = t.animation.velocityY * 0.9 := by
          simp only [inertiaTick, hta']
          simp [hstop]
        obtain ⟨hvx, hvy⟩ := hrun
        refine ⟨?_, ?_, ?_⟩
        · rw [hvx, ihx]; ring
        · rw [hvy, ihy]; ring
        · intro _
          rw [hvx, hvy]
          exact hstop

/-- Claim C4: from any initial inertia velocity with both components below
10000 in magnitude, the inertia loop goes inactive within 110 ticks (0.9^110
decays any such velocity below the 0.1 stop threshold). -/
theorem inertia_terminates (st : CanvasState) (vx vy : ℝ)
    (hx : |vx| < 10000) (hy : |vy| < 10000) :
    (inertiaTick^[110]
      { st with animation := { active := true, velocityX := vx, velocityY := vy } }
      ).animation.active = false := by
  set s : CanvasState :=
    { st with animation := { active := true, velocityX := vx, velocityY := vy } } with hs
  by_cases hact : (inertiaTick^[110] s).animation.active = false
  · exact hact
  · have hact' : (inertiaTick^[110] s).animation.active = true := by
      cases h : (inertiaTick^[110] s).animation.active
      · exact absurd h hact
      · rfl
    obtain ⟨hvx, hvy, hthr⟩ := inertiaTick_iterate_active s 110 hact'
    have hsx : s.animation.velocityX = vx := rfl
    have hsy : s.animation.velocityY = vy := rfl
    exfalso
    apply hthr (by norm_num)
    have hbound : (10000 : ℝ) * 0.9 ^ 110 < 0.1 := by norm_num
    have hpow : (0 : ℝ) ≤ 0.9 ^ 110 := by positivity
    constructor
    · rw [hvx, hsx, abs_mul, abs_of_nonneg hpow]
      calc |vx| * 0.9 ^ 110 ≤ 10000 * 0.9 ^ 110 :=
            mul_le_mul_of_nonneg_right (le_of_lt hx) hpow
        _ < 0.1 := hbound
    · rw [hvy, hsy, abs_mul, abs_of_nonneg hpow]
      calc |vy| * 0.9 ^ 110 ≤ 10000 * 0.9 ^ 110 :=
            mul_le_mul_of_nonneg_right (le_of_lt hy) hpow
        _ < 0.1 := hbound

set_option maxRecDepth 4000 in
/-- Claim C4, witness: a drag released at velocity (50, -20) stops within
110 ticks. -/
theorem inertia_terminates_witness :
    (inertiaTick^[110]
      { backgroundImage := none, photocardImage := none,
        isPlaceholder := false, modalOpen := false,
        canvasRect := ⟨0, 0, 400, 600⟩,
        background := ⟨0, 0, 1, 0, false, false⟩,
        photocard := ⟨0, 0, 1, 0, false, false, Layer.front, true⟩,
        gesture := ⟨false, 0, 0, 1, 0, 0, 0, []⟩,
        animation := { active := true, velocityX := 50, velocityY := -20 } }
      ).animation.active = false := by
  have h := inertia_terminates
    { backgroundImage := none, photocardImage := none,
      isPlaceholder := false, modalOpen := false,
      canvasRect := ⟨0, 0, 400, 600⟩,
      background := ⟨0, 0, 1, 0, false, false⟩,
      photocard := ⟨0, 0, 1, 0, false, false, Layer.front, true⟩,
      gesture := ⟨false, 0, 0, 1, 0, 0, 0, []⟩,
      animation := ⟨false, 0, 0⟩ }
    50 (-20) (by norm_num) (by norm_num)
  exact h

/-- The Math.max(0.1, Math.min(5, z)) clamp always lands in [0.1, 5]. -/
theorem clamp_mem_range (z : ℝ) : 0.1 ≤ max 0.1 (min 5 z) ∧ max 0.1 (min 5 z) ≤ 5 :=
  ⟨le_max_left _ _, max_le (by norm_num) (min_le_left _ _)⟩

/-- A pointer-move event (drag or pinch) keeps the photocard scale within
[0.1, 5]. -/
theorem handlePointerMove_scale_range (st : CanvasState) (e : PointerEvent)
    (h : 0.1 ≤ st.photocard.scale ∧ st.photocard.scale ≤ 5) :
    0.1 ≤ (handlePointerMove st e).photocard.scale
    ∧ (handlePointerMove st e).photocard.scale ≤ 5 := by
  unfold handlePointerMove
  split
  · exact h
  · split
    · rcases hup : updatePointer st.gesture.pointers e.pointerId e.clientX e.clientY with
        _ | ⟨p, _ | ⟨q, _ | ⟨r, rest⟩⟩⟩ <;> simp only [hup]
      · exact h
      · exact h
      · exact ⟨le_max_left _ _, max_le (by norm_num) (min_le_left _ _)⟩
      · exact h
    · exact h

/-- A wheel event keeps the photocard scale within [0.1, 5]. -/
theorem handleWheel_scale_range (st : CanvasState) (deltaY : ℝ)
    (h : 0.1 ≤ st.photocard.scale ∧ st.photocard.scale ≤ 5) :
    0.1 ≤ (handleWheel st deltaY).photocard.scale
    ∧ (handleWheel st deltaY).photocard.scale ≤ 5 := by
  unfold handleWheel
  split
  · exact h
  · exact ⟨le_max_left _ _, max_le (by norm_num) (min_le_left _ _)⟩

/-- Any one scale-setting input (pinch move, wheel, in-range slider value)
keeps the photocard scale within [0.1, 5]. -/
theorem applyInput_scale_range (st : CanvasState) (ev : InputEvent)
    (h : 0.1 ≤ st.photocard.scale ∧ st.photocard.scale ≤ 5)
    (hok : sliderValueInRange ev) :
    0.1 ≤ (applyInput st ev).photocard.scale
    ∧ (applyInput st ev).photocard.scale ≤ 5 := by
  cases ev with
  | pointerMove e => exact handlePointerMove_scale_range st e h
  | wheel deltaY => exact handleWheel_scale_range st deltaY h
  | sliderScale value =>
    simp only [applyInput, updatePhotocard]
    cases him : st.photocardImage with
    | none => exact h
    | some img => simpa [setPhotocardProp] using hok

/-- Claim C3: over any sequence of pinch-zoom moves, wheel events and
scale-slider inputs, a photocard scale that starts in [0.1, 5] stays in
[0.1, 5] after every operation (every prefix of the sequence). -/
theorem scale_stays_clamped (st : CanvasState) (evs : List InputEvent)
    (h0 : 0.1 ≤ st.photocard.scale ∧ st.photocard.scale ≤ 5)
    (hs : ∀ ev ∈ evs, sliderValueInRange ev) :
    ∀ n : ℕ, 0.1 ≤ ((evs.take n).foldl applyInput st).photocard.scale
      ∧ ((evs.take n).foldl applyInput st).photocard.scale ≤ 5 := by
  have main : ∀ (l : List InputEvent) (s : CanvasState),
      (∀ ev ∈ l, sliderValueInRange ev) →
      (0.1 ≤ s.photocard.scale ∧ s.photocard.scale ≤ 5) →
      0.1 ≤ (l.foldl applyInput s).photocard.scale
        ∧ (l.foldl applyInput s).photocard.scale ≤ 5 := by
    intro l
    induction l with
    | nil => intro s _ hinv; simpa using hinv
    | cons e rest ih =>
      intro s hl hinv
      simp only [List.foldl_cons]
      exact ih _ (fun ev hev => hl ev (List.mem_cons_of_mem _ hev))
        (applyInput_scale_range s e hinv (hl e (List.mem_cons_self _ _)))
  intro n
  exact main (evs.take n) st (fun ev hev => hs ev (List.take_subset n evs hev)) h0

/-- Claim C3, witness: a wheel zoom, an in-range slider input and a pointer
move applied to a loaded photocard at scale 1 leave the scale in [0.1, 5]. -/
theorem scale_stays_clamped_witness :
    let st : CanvasState :=
      { backgroundImage := none, photocardImage := some ⟨100, 150⟩,
        isPlaceholder := false, modalOpen := false,
        canvasRect := ⟨0, 0, 400, 600⟩,
        background := ⟨0, 0, 1, 0, false, false⟩,
        photocard := ⟨200, 300, 1, 0, false, false, Layer.front, true⟩,
        gesture := ⟨false, 0, 0, 1, 0, 0, 0, []⟩,
        animation := ⟨false, 0, 0⟩ }
    0.1 ≤ (([InputEvent.wheel 1, InputEvent.sliderScale 2,
        InputEvent.pointerMove ⟨1, 10, 10⟩].take 3).foldl applyInput st).photocard.scale
      ∧ (([InputEvent.wheel 1, InputEvent.sliderScale 2,
        InputEvent.pointerMove ⟨1, 10, 10⟩].take 3).foldl applyInput st).photocard.scale ≤ 5 := by
  intro st
  refine scale_stays_clamped st _
    (show (0.1 : ℝ) ≤ 1 ∧ (1 : ℝ) ≤ 5 by constructor <;> norm_num) ?_ 3
  intro ev hev
  simp only [List.mem_cons, List.not_mem_nil, or_false] at hev
  rcases hev with rfl | rfl | rfl
  · trivial
  · exact ⟨by norm_num, by norm_num⟩
  · trivial

/-- The buffer a frame beyond the first is composited onto is the previous
output buffer, cleared exactly when the previous frame's disposal type
is 2. -/
theorem composeFrames_getD_succ (gifWidth gifHeight : ℕ) (fs : List GifFrame) :
    ∀ (pd : Option ℕ) (buf : GifCanvas) (i : ℕ), i + 1 < fs.length →
      (composeFrames gifWidth gifHeight pd buf fs).getD (i + 1) (fun _ _ => 0)
        = putImageData gifWidth gifHeight (fs.getD (i + 1) default)
            (if (fs.getD i default).disposalType = 2
             then clearRect gifWidth gifHeight
               ((composeFrames gifWidth gifHeight pd buf fs).getD i (fun _ _ => 0))
             else (composeFrames gifWidth gifHeight pd buf fs).getD i (fun _ _ => 0)) := by
  induction fs with
  | nil => intro pd buf i h; simp at h
  | cons f rest ih =>
    intro pd buf i h
    cases i with
    | zero =>
      cases rest with
      | nil => simp at h
      | cons g rest2 =>
        simp [composeFrames, List.getD_cons_succ, List.getD_cons_zero]
    | succ j =>
      have h' : j + 1 < rest.length := by
        simpa [Nat.succ_lt_succ_iff] using h
      simpa [composeFrames, List.getD_cons_succ] using
        ih (some f.disposalType)
          (putImageData gifWidth gifHeight f
            (if pd = some 2 then clearRect gifWidth gifHeight buf else buf)) j h'

/-- Claim C7: the GIF composition loop keeps a persistent buffer across
frames and clears it before compositing the next frame exactly when the
previous frame's disposal type is 2 (restore to background); consequently,
in a 3-frame input whose second frame has disposal type 2, the third
composed frame equals the third patch drawn on a fresh transparent buffer —
no pixel of frame 1's or frame 2's patches survives into it. -/
theorem parseGif_disposal_restore (gifWidth gifHeight : ℕ) (frames : List GifFrame)
    (i : ℕ) (hi : i + 1 < frames.length)
    (f1 f2 f3 : GifFrame) (h2 : f2.disposalType = 2)
    (x y : ℕ) (hx : x < gifWidth) (hy : y < gifHeight) :
    ((parseGif gifWidth gifHeight frames).getD (i + 1) (fun _ _ => 0)
      = putImageData gifWidth gifHeight (frames.getD (i + 1) default)
          (if (frames.getD i default).disposalType = 2
           then clearRect gifWidth gifHeight
             ((parseGif gifWidth gifHeight frames).getD i (fun _ _ => 0))
           else (parseGif gifWidth gifHeight frames).getD i (fun _ _ => 0)))
    ∧ ((parseGif gifWidth gifHeight [f1, f2, f3]).getD 2 (fun _ _ => 0)) x y
        = putImageData gifWidth gifHeight f3 (fun _ _ => 0) x y := by
  constructor
  · exact composeFrames_getD_succ gifWidth gifHeight frames none (fun _ _ => 0) i hi
  · simp only [parseGif, composeFrames, List.getD_cons_succ, List.getD_cons_zero, h2,
      Option.some.injEq, if_pos, reduceIte]
    simp only [putImageData, clearRect]
    by_cases hc : x < gifWidth ∧ y < gifHeight ∧ f3.left ≤ x ∧ x < f3.left + f3.width
        ∧ f3.top ≤ y ∧ y < f3.top + f3.height
    · rw [if_pos hc, if_pos hc]
    · rw [if_neg hc, if_neg hc]
      simp [hx, hy]

/-- Claim C7, witness: a full 10×10 patch, then a 5×5 patch with disposal
type 2, then an empty third frame — the third composed frame matches the
third patch on a cleared buffer at pixel (0, 0). -/
theorem parseGif_disposal_restore_witness :
    let f1w : GifFrame := ⟨0, 0, 10, 10, fun _ _ => 1, 1, none⟩
    let f2w : GifFrame := ⟨2, 2, 5, 5, fun _ _ => 2, 2, none⟩
    let f3w : GifFrame := ⟨0, 0, 0, 0, fun _ _ => 0, 0, none⟩
    ((parseGif 10 10 [f1w, f2w, f3w]).getD 1 (fun _ _ => 0)
      = putImageData 10 10 ([f1w, f2w, f3w].getD 1 default)
          (if ([f1w, f2w, f3w].getD 0 default).disposalType = 2
           then clearRect 10 10 ((parseGif 10 10 [f1w, f2w, f3w]).getD 0 (fun _ _ => 0))
           else (parseGif 10 10 [f1w, f2w, f3w]).getD 0 (fun _ _ => 0)))
    ∧ ((parseGif 10 10 [f1w, f2w, f3w]).getD 2 (fun _ _ => 0)) 0 0
        = putImageData 10 10 f3w (fun _ _ => 0) 0 0 := by
  intro f1w f2w f3w
  exact parseGif_disposal_restore 10 10 [f1w, f2w, f3w] 0 (by simp)
    f1w f2w f3w rfl 0 0 (by norm_num) (by norm_num)

/-- A drawToploader call always records the (width, height) it was given in
the cache (canvas.js 1621-1622). -/
theorem drawToploader_cachedDims (cfg : ToploaderConfigData)
    (cache : ToploaderGradientCache) (nextId : ℕ) (w h : ℝ) :
    (drawToploader cfg cache nextId w h).cache.cachedWidth = some w
    ∧ (drawToploader cfg cache nextId w h).cache.cachedHeight = some h :=
  ⟨rfl, rfl⟩

/-- When the cached dimensions differ, drawToploader allocates three fresh
gradients (ids nextId, nextId+1, nextId+2) and stores them in the cache. -/
theorem drawToploader_dims_changed (cfg : ToploaderConfigData)
    (cache : ToploaderGradientCache) (nextId : ℕ) (w h : ℝ)
    (hch : cache.cachedWidth ≠ some w ∨ cache.cachedHeight ≠ some h) :
    (drawToploader cfg cache nextId w h).west.gid = nextId
    ∧ (drawToploader cfg cache nextId w h).east.gid = nextId + 1
    ∧ (drawToploader cfg cache nextId w h).south.gid = nextId + 2
    ∧ (drawToploader cfg cache nextId w h).nextGradientId = nextId + 3
    ∧ (drawToploader cfg cache nextId w h).cache.westGradient
        = some (drawToploader cfg cache nextId w h).west
    ∧ (drawToploader cfg cache nextId w h).cache.eastGradient
        = some (drawToploader cfg cache nextId w h).east
    ∧ (drawToploader cfg cache nextId w h).cache.southGradient
        = some (drawToploader cfg cache nextId w h).south := by
  simp only [drawToploader]
  split_ifs
  exact ⟨rfl, rfl, rfl, rfl, rfl, rfl, rfl⟩

/-- When the cached dimensions match, drawToploader reuses the cached
gradients, allocates nothing, and leaves the cached gradients alone. -/
theorem drawToploader_dims_unchanged (cfg : ToploaderConfigData)
    (cache : ToploaderGradientCache) (nextId : ℕ) (w h : ℝ)
    (hch : ¬(cache.cachedWidth ≠ some w ∨ cache.cachedHeight ≠ some h)) :
    (drawToploader cfg cache nextId w h).west = cache.westGradient.getD default
    ∧ (drawToploader cfg cache nextId w h).east = cache.eastGradient.getD default
    ∧ (drawToploader cfg cache nextId w h).south = cache.southGradient.getD default
    ∧ (drawToploader cfg cache nextId w h).nextGradientId = nextId
    ∧ (drawToploader cfg cache nextId w h).cache.westGradient = cache.westGradient
    ∧ (drawToploader cfg cache nextId w h).cache.eastGradient = cache.eastGradient
    ∧ (drawToploader cfg cache nextId w h).cache.southGradient = cache.southGradient := by
  simp only [drawToploader]
  split_ifs
  exact ⟨rfl, rfl, rfl, rfl, rfl, rfl, rfl⟩

/-- Claim C9: for two consecutive drawToploader calls, a second call with
the same (width, height) reuses the first call's west/east/south gradient
objects and constructs none (the allocation counter does not move); a
second call with different dimensions constructs three fresh gradient
objects and stores them in the cache together with the new dimensions. -/
theorem drawToploader_gradient_cache (cfg : ToploaderConfigData)
    (cache0 : ToploaderGradientCache) (n0 : ℕ) (w h w' h' : ℝ) :
    let r1 := drawToploader cfg cache0 n0 w h
    let r2 := drawToploader cfg r1.cache r1.nextGradientId w' h'
    (w' = w → h' = h →
      r2.west = r1.west ∧ r2.east = r1.east ∧ r2.south = r1.south
      ∧ r2.nextGradientId = r1.nextGradientId)
    ∧ (¬(w' = w ∧ h' = h) →
      r2.west.gid = r1.nextGradientId
      ∧ r2.east.gid = r1.nextGradientId + 1
      ∧ r2.south.gid = r1.nextGradientId + 2
      ∧ r2.nextGradientId = r1.nextGradientId + 3
      ∧ r2.cache.westGradient = some r2.west
      ∧ r2.cache.eastGradient = some r2.east
      ∧ r2.cache.southGradient = some r2.south
      ∧ r2.cache.cachedWidth = some w'
      ∧ r2.cache.cachedHeight = some h') := by
  obtain ⟨hdw, hdh⟩ := drawToploader_cachedDims cfg cache0 n0 w h
  constructor
  · intro hw hh
    subst hw; subst hh
    have hch2 : ¬((drawToploader cfg cache0 n0 w' h').cache.cachedWidth ≠ some w'
        ∨ (drawToploader cfg cache0 n0 w' h').cache.cachedHeight ≠ some h') := by
      rw [hdw, hdh]
      simp
    obtain ⟨u1, u2, u3, u4, _, _, _⟩ :=
      drawToploader_dims_unchanged cfg (drawToploader cfg cache0 n0 w' h').cache
        (drawToploader cfg cache0 n0 w' h').nextGradientId w' h' hch2
    refine ⟨?_, ?_, ?_, u4⟩
    · rw [u1]
      by_cases hch1 : cache0.cachedWidth ≠ some w' ∨ cache0.cachedHeight ≠ some h'
      · obtain ⟨_, _, _, _, c5, _, _⟩ := drawToploader_dims_changed cfg cache0 n0 w' h' hch1
        rw [c5]; rfl
      · obtain ⟨v1, _, _, _, v5, _, _⟩ := drawToploader_dims_unchanged cfg cache0 n0 w' h' hch1
        rw [v5, v1]
    · rw [u2]
      by_cases hch1 : cache0.cachedWidth ≠ some w' ∨ cache0.cachedHeight ≠ some h'
      · obtain ⟨_, _, _, _, _, c6, _⟩ := drawToploader_dims_changed cfg cache0 n0 w' h' hch1
        rw [c6]; rfl
      · obtain ⟨_, v2, _, _, _, v6, _⟩ := drawToploader_dims_unchanged cfg cache0 n0 w' h' hch1
        rw [v6, v2]
    · rw [u3]
      by_cases hch1 : cache0.cachedWidth ≠ some w' ∨ cache0.cachedHeight ≠ some h'
      · obtain ⟨_, _, _, _, _, _, c7⟩ := drawToploader_dims_changed cfg cache0 n0 w' h' hch1
        rw [c7]; rfl
      · obtain ⟨_, _, v3, _, _, _, v7⟩ := drawToploader_dims_unchanged cfg cache0 n0 w' h' hch1
        rw [v7, v3]
  · intro hne
    have hne' : w' ≠ w ∨ h' ≠ h := by
      by_cases hw : w' = w
      · right
        intro hh
        exact hne ⟨hw, hh⟩
      · left; exact hw
    have hch2 : (drawToploader cfg cache0 n0 w h).cache.cachedWidth ≠ some w'
        ∨ (drawToploader cfg cache0 n0 w h).cache.cachedHeight ≠ some h' := by
      rw [hdw, hdh]
      rcases hne' with hw | hh
      · left
        simp [Ne.symm hw]
      · right
        simp [Ne.symm hh]
    obtain ⟨c1, c2, c3, c4, c5, c6, c7⟩ :=
      drawToploader_dims_changed cfg (drawToploader cfg cache0 n0 w h).cache
        (drawToploader cfg cache0 n0 w h).nextGradientId w' h' hch2
    obtain ⟨d1, d2⟩ :=
      drawToploader_cachedDims cfg (drawToploader cfg cache0 n0 w h).cache
        (drawToploader cfg cache0 n0 w h).nextGradientId w' h'
    exact ⟨c1, c2, c3, c4, c5, c6, c7, d1, d2⟩

/-- Claim C9, witness: a first call at 100×150 followed by a same-size call
reuses the cached gradients and allocates nothing. -/
theorem drawToploader_gradient_cache_witness :
    let r1 := drawToploader ToploaderConfig ⟨none, none, none, none, none⟩ 0 100 150
    let r2 := drawToploader ToploaderConfig r1.cache r1.nextGradientId 100 150
    r2.west = r1.west ∧ r2.east = r1.east ∧ r2.south = r1.south
    ∧ r2.nextGradientId = r1.nextGradientId := by
  exact (drawToploader_gradient_cache ToploaderConfig ⟨none, none, none, none, none⟩
    0 100 150 100 150).1 rfl rfl

/-- A pointer-move event on an active gesture with a loaded photocard keeps
the guards and the reference snapshot intact and rewrites the tracked
pointer positions with updatePointer. -/
theorem handlePointerMove_fields (st : CanvasState) (e : PointerEvent)
    (hm : st.modalOpen = false) (ha : st.gesture.active = true)
    (img : ImgDim) (hi : st.photocardImage = some img) :
    (handlePointerMove st e).modalOpen = false
    ∧ (handlePointerMove st e).gesture.active = true
    ∧ (handlePointerMove st e).photocardImage = some img
    ∧ (handlePointerMove st e).gesture.startDistance = st.gesture.startDistance
    ∧ (handlePointerMove st e).gesture.startAngle = st.gesture.startAngle
    ∧ (handlePointerMove st e).gesture.startScale = st.gesture.startScale
    ∧ (handlePointerMove st e).gesture.startRotation = st.gesture.startRotation
    ∧ (handlePointerMove st e).gesture.pointers
        = updatePointer st.gesture.pointers e.pointerId e.clientX e.clientY := by
  unfold handlePointerMove
  rw [hm, ha, hi]
  rcases hup : updatePointer st.gesture.pointers e.pointerId e.clientX e.clientY with
      _ | ⟨p, _ | ⟨q, _ | ⟨r, rest⟩⟩⟩ <;>
    simp [hm, ha, hi, hup]

/-- Any run of pointer-move events keeps the guards and the reference
snapshot of the gesture intact. -/
theorem foldl_handlePointerMove_fields (ms : List PointerEvent) :
    ∀ (st : CanvasState), st.modalOpen = false → st.gesture.active = true →
      ∀ img : ImgDim, st.photocardImage = some img →
      (ms.foldl handlePointerMove st).modalOpen = false
      ∧ (ms.foldl handlePointerMove st).gesture.active = true
      ∧ (ms.foldl handlePointerMove st).photocardImage = some img
      ∧ (ms.foldl handlePointerMove st).gesture.startDistance = st.gesture.startDistance
      ∧ (ms.foldl handlePointerMove st).gesture.startAngle = st.gesture.startAngle
      ∧ (ms.foldl handlePointerMove st).gesture.startScale = st.gesture.startScale
      ∧ (ms.foldl handlePointerMove st).gesture.startRotation = st.gesture.startRotation := by
  induction ms with
  | nil =>
    intro st hm ha img hi
    exact ⟨hm, ha, hi, rfl, rfl, rfl, rfl⟩
  | cons e rest ih =>
    intro st hm ha img hi
    simp only [List.foldl_cons]
    obtain ⟨m1, a1, i1, d1, g1, s1, r1, _⟩ := handlePointerMove_fields st e hm ha img hi
    obtain ⟨M, A, I, D, G, S, R⟩ := ih (handlePointerMove st e) m1 a1 img i1
    exact ⟨M, A, I, D.trans d1, G.trans g1, S.trans s1, R.trans r1⟩

/-- A pointer-move event whose updated pointer list has exactly two entries
takes the pinch branch: scale is the clamp of the reference scale times the
distance ratio, rotation is the reference rotation plus the angle delta. -/
theorem handlePointerMove_pinch (st : CanvasState) (e : PointerEvent)
    (hm : st.modalOpen = false) (ha : st.gesture.active = true)
    (img : ImgDim) (hi : st.photocardImage = some img)
    (p1 p2 : Pointer)
    (hup : updatePointer st.gesture.pointers e.pointerId e.clientX e.clientY = [p1, p2]) :
    (handlePointerMove st e).photocard.scale
      = max 0.1 (min 5 (st.gesture.startScale * (getDistance p1 p2 / st.gesture.startDistance)))
    ∧ (handlePointerMove st e).photocard.rotation
      = st.gesture.startRotation + (getAngle p1 p2 - st.gesture.startAngle) := by
  unfold handlePointerMove
  rw [hm, ha, hi]
  simp [hup]

/-- Claim C2: a two-pointer gesture snapshots distance, angle, scale and
rotation when the second pointer joins; after any non-empty run of
pointer-move events whose final pointer pair is (p1, p2), the photocard has
exactly scale = clamp(s0 * d1/d0, 0.1, 5) and rotation = r0 + (a1 - a0),
independent of the number or positions of intermediate moves. -/
theorem pinch_rotate_reference_relative
    (bgi : Option ImgDim) (img : ImgDim) (rect : Rect) (bg : BackgroundT)
    (pcx pcy s0 r0 : ℝ) (fH fV : Bool) (lyr : Layer) (tl : Bool)
    (gd ga gs gr glx gly : ℝ) (anim : Animation)
    (q1 : Pointer) (e2 : PointerEvent) (ms : List PointerEvent) (m : PointerEvent)
    (p1 p2 : Pointer) (st2 : CanvasState)
    (hst2 : st2 = (ms ++ [m]).foldl handlePointerMove
      (handlePointerDown
        { backgroundImage := bgi, photocardImage := some img,
          isPlaceholder := false, modalOpen := false, canvasRect := rect,
          background := bg,
          photocard := ⟨pcx, pcy, s0, r0, fH, fV, lyr, tl⟩,
          gesture := ⟨true, gd, ga, gs, gr, glx, gly, [q1]⟩,
          animation := anim } e2))
    (hp : st2.gesture.pointers = [p1, p2]) :
    st2.photocard.scale
      = max 0.1 (min 5 (s0 * getDistance p1 p2
          / getDistance q1 ⟨e2.pointerId, e2.clientX, e2.clientY⟩))
    ∧ st2.photocard.rotation
      = r0 + (getAngle p1 p2 - getAngle q1 ⟨e2.pointerId, e2.clientX, e2.clientY⟩) := by
  subst hst2
  rw [List.foldl_append, List.foldl_cons, List.foldl_nil] at hp
  obtain ⟨M, A, I, D, G, S, R⟩ :=
    foldl_handlePointerMove_fields ms
      (handlePointerDown
        { backgroundImage := bgi, photocardImage := some img,
          isPlaceholder := false, modalOpen := false, canvasRect := rect,
          background := bg,
          photocard := ⟨pcx, pcy, s0, r0, fH, fV, lyr, tl⟩,
          gesture := ⟨true, gd, ga, gs, gr, glx, gly, [q1]⟩,
          animation := anim } e2) rfl rfl img rfl
  obtain ⟨_, _, _, _, _, _, _, P⟩ :=
    handlePointerMove_fields
      (ms.foldl handlePointerMove
        (handlePointerDown
          { backgroundImage := bgi, photocardImage := some img,
            isPlaceholder := false, modalOpen := false, canvasRect := rect,
            background := bg,
            photocard := ⟨pcx, pcy, s0, r0, fH, fV, lyr, tl⟩,
            gesture := ⟨true, gd, ga, gs, gr, glx, gly, [q1]⟩,
            animation := anim } e2)) m M A img I
  have hup := P.symm.trans hp
  obtain ⟨hsc, hrot⟩ :=
    handlePointerMove_pinch
      (ms.foldl handlePointerMove
        (handlePointerDown
          { backgroundImage := bgi, photocardImage := some img,
            isPlaceholder := false, modalOpen := false, canvasRect := rect,
            background := bg,
            photocard := ⟨pcx, pcy, s0, r0, fH, fV, lyr, tl⟩,
            gesture := ⟨true, gd, ga, gs, gr, glx, gly, [q1]⟩,
            animation := anim } e2)) m M A img I p1 p2 hup
  constructor
  · rw [List.foldl_append, List.foldl_cons, List.foldl_nil, hsc, S, D, mul_div_assoc]
    rfl
  · rw [List.foldl_append, List.foldl_cons, List.foldl_nil, hrot, R, G]
    rfl

/-- Claim C2, witness: one pointer at (0,0) joined by a second at (3,4),
then a single move of the first pointer to (6,8), yields the clamp formula
from the snapshot taken when the second pointer joined. -/
theorem pinch_rotate_reference_relative_witness :
    (([] ++ [(⟨1, 6, 8⟩ : PointerEvent)]).foldl handlePointerMove
      (handlePointerDown
        { backgroundImage := none, photocardImage := some ⟨100, 150⟩,
          isPlaceholder := false, modalOpen := false, canvasRect := ⟨0, 0, 400, 600⟩,
          background := ⟨0, 0, 1, 0, false, false⟩,
          photocard := ⟨200, 300, 1, 0, false, false, Layer.front, true⟩,
          gesture := ⟨true, 0, 0, 1, 0, 0, 0, [⟨1, 0, 0⟩]⟩,
          animation := ⟨false, 0, 0⟩ } ⟨2, 3, 4⟩)).photocard.scale
      = max 0.1 (min 5 ((1 : ℝ) * getDistance ⟨1, 6, 8⟩ ⟨2, 3, 4⟩
          / getDistance ⟨1, 0, 0⟩ ⟨2, 3, 4⟩))
    ∧ (([] ++ [(⟨1, 6, 8⟩ : PointerEvent)]).foldl handlePointerMove
      (handlePointerDown
        { backgroundImage := none, photocardImage := some ⟨100, 150⟩,
          isPlaceholder := false, modalOpen := false, canvasRect := ⟨0, 0, 400, 600⟩,
          background := ⟨0, 0, 1, 0, false, false⟩,
          photocard := ⟨200, 300, 1, 0, false, false, Layer.front, true⟩,
          gesture := ⟨true, 0, 0, 1, 0, 0, 0, [⟨1, 0, 0⟩]⟩,
          animation := ⟨false, 0, 0⟩ } ⟨2, 3, 4⟩)).photocard.rotation
      = (0 : ℝ) + (getAngle ⟨1, 6, 8⟩ ⟨2, 3, 4⟩ - getAngle ⟨1, 0, 0⟩ ⟨2, 3, 4⟩) := by
  exact pinch_rotate_reference_relative none ⟨100, 150⟩ ⟨0, 0, 400, 600⟩
    ⟨0, 0, 1, 0, false, false⟩ 200 300 1 0 false false Layer.front true
    0 0 1 0 0 0 ⟨false, 0, 0⟩ ⟨1, 0, 0⟩ ⟨2, 3, 4⟩ [] ⟨1, 6, 8⟩
    ⟨1, 6, 8⟩ ⟨2, 3, 4⟩ _ rfl rfl

end Proofshot
